import Mathlib

/-
Verification development for the realtime transcription relay backend
(DWGqaz123/realtime_transcriber_WG).

Shallow embedding of:
  * backend/elevenlabs_client.py  (ElevenLabsConfig, ElevenLabsRealtimeClient)
  * backend/session_manager.py    (Session, SessionManager)

Modelling conventions:
  * Python strings are Lean `String`; the ASCII-only helpers `pyStrip`,
    `pyUpper`, `pyLower` embed `str.strip()`, `str.upper()`, `str.lower()`.
  * Python floats that are only stored and compared (1.5, 0.4, 12.0) are
    embedded as exact rationals in `ℚ`.
  * Asynchronous effects (websocket sends, task cancellation, logger calls,
    registry removal) are recorded as an ordered trace of `TraceEvent`s, in
    the order the Python statements execute them.  `print` diagnostics are
    not modelled (they carry no program-visible state).
  * The outcome of `ElevenLabsRealtimeClient.connect()` is network I/O; it
    is supplied as an explicit `ConnectEnv` (success, or failure with an
    error message).  Websocket sends are modelled on their non-raising path;
    every send in `session_manager.py` is wrapped in try/except anyway.
  * Callback closures (`on_partial` / `on_final`) are modelled by whether
    they are bound (`onPartialBound` / `onFinalBound`); the receive loop's
    dispatch returns which callback it would invoke, with which text.
-/

/- ------------------------------------------------------------------
   Python string primitives (ASCII semantics), used by the handlers.
   ------------------------------------------------------------------ -/

/-- Embedding of Python `str.strip()`: drop whitespace from both ends. -/
def pyStrip (s : String) : String :=
  String.mk (((s.toList.dropWhile Char.isWhitespace).reverse.dropWhile
      Char.isWhitespace).reverse)

/-- Embedding of Python `str.upper()` (ASCII). -/
def pyUpper (s : String) : String :=
  String.mk (s.toList.map Char.toUpper)

/-- Embedding of Python `str.lower()` (ASCII). -/
def pyLower (s : String) : String :=
  String.mk (s.toList.map Char.toLower)

/-- p is a p refix of s (first argument: the string, second: the candidate). -/
def listStartsWith [BEq α] : List α → List α → Bool
  | _, [] => true
  | [], _ :: _ => false
  | a :: s, b :: p => a == b && listStartsWith s p

/-- Embedding of Python `s.startswith(p)`. -/
def pyStartsWith (s p : String) : Bool :=
  listStartsWith s.toList p.toList

/-- Everything after the first occurrence of `sep` ([] if `sep` absent). -/
def listAfterFirst [BEq α] (sep : α) : List α → List α
  | [] => []
  | x :: xs => if x == sep then xs else listAfterFirst sep xs

/-- Embedding of Python `s.split(sep, 1)[1]` for a one-character separator,
on inputs where the separator occurs (the only way `session_manager.py`
calls it, guarded by `startswith("MODE:")`). -/
def pySplitOnceTail (s : String) (sep : Char) : String :=
  String.mk (listAfterFirst sep s.toList)

/-- Python truthiness of an optional string (`None` and `""` are falsy). -/
def pyTruthy : Option String → Bool
  | none => false
  | some s => !s.isEmpty

/-- Embedding of Python `a or b` on optional strings. -/
def pyOrOpt (a b : Option String) : Option String :=
  if pyTruthy a then a else b

/-- Embedding of Python `a or b or ""` on optional strings. -/
def pyOrStrEmpty (a b : Option String) : String :=
  if pyTruthy a then a.getD ("") else if pyTruthy b then b.getD ("") else ""

/- ------------------------------------------------------------------
   ElevenLabsConfig and the mode-configuration resolver.
   ------------------------------------------------------------------ -/

/-- Embedding of `ElevenLabsConfig` (elevenlabs_client.py lines 12-36).
Field defaults mirror the dataclass defaults. -/
structure ElevenLabsConfig where
  audio_format : String := "pcm_16000"
  sample_rate : Nat := 16000
  language_code : Option String := none
  timestamps_granularity : String := "word"
  mode : String := "lecture"
  model_id : String := "scribe_v2_realtime"
  commit_strategy : String := "vad"
  vad_silence_threshold_secs : Option ℚ := some (3 / 2)
  vad_threshold : Option ℚ := some (2 / 5)
  min_speech_duration_ms : Option Nat := some 250
deriving DecidableEq

/-- Embedding of `SessionManager._build_elevenlabs_config_for_mode`
(session_manager.py lines 56-97).  `model_id` is not passed in the source
and takes the dataclass default. -/
def buildElevenLabsConfigForMode (mode : String) : ElevenLabsConfig :=
  let m := pyLower mode
  if m == "discussion" then
    { audio_format := "pcm_16000"
      sample_rate := 16000
      language_code := none
      timestamps_granularity := "word"
      mode := m
      model_id := "scribe_v2_realtime"
      commit_strategy := "manual"
      vad_silence_threshold_secs := none
      vad_threshold := none
      min_speech_duration_ms := none }
  else
    { audio_format := "pcm_16000"
      sample_rate := 16000
      language_code := none
      timestamps_granularity := "word"
      mode := "lecture"
      model_id := "scribe_v2_realtime"
      commit_strategy := "vad"
      vad_silence_threshold_secs := some (3 / 2)
      vad_threshold := some (2 / 5)
      min_speech_duration_ms := some 250 }

/-- Embedding of the commit interval hard-coded at session_manager.py line
251 (`commit_interval = 12.0`), passed to `_manual_commit_loop`. -/
def manualCommitInterval : ℚ := 12

/- ------------------------------------------------------------------
   Upstream client: wire messages, base64, send operations.
   ------------------------------------------------------------------ -/

/-- The outbound upstream message shape built in `send_audio_chunk` and
`send_commit` (elevenlabs_client.py lines 183-190 and 223-228). -/
structure WireMessage where
  message_type : String
  audio_base_64 : String
  sample_rate : Nat
  commit : Bool
deriving DecidableEq

/-- The standard base64 alphabet. -/
def base64Alphabet : List Char :=
  ("ABCDEFGHIJKLMNOPQRSTUVWXYZabcdefghijklmnopqrstuvwxyz0123456789+/").toList

/-- The nth base64 alphabet character. -/
def b64c (n : Nat) : Char := base64Alphabet.getD n ('=')

/-- Embedding of `base64.b64encode(...).decode("ascii")` on a byte list. -/
def base64Encode : List Nat → String
  | [] => ""
  | [a] =>
      String.mk [b64c (a % 256 / 4), b64c (a % 256 % 4 * 16), '=', '=']
  | [a, b] =>
      String.mk [b64c (a % 256 / 4), b64c (a % 256 % 4 * 16 + b % 256 / 16),
        b64c (b % 256 % 16 * 4), '=']
  | a :: b :: c :: rest =>
      String.mk [b64c (a % 256 / 4), b64c (a % 256 % 4 * 16 + b % 256 / 16),
        b64c (b % 256 % 16 * 4 + c % 256 / 64), b64c (c % 256 % 64)]
        ++ base64Encode rest

/-- Embedding of the mutable state of `ElevenLabsRealtimeClient`
(elevenlabs_client.py lines 49-58).  `ws_open` models `_ws is not None`;
`onPartialBound` / `onFinalBound` model whether the `on_partial` /
`on_final` callback slots are bound. -/
structure ClientState where
  api_key : String
  config : ElevenLabsConfig
  connected : Bool
  ws_open : Bool
  last_chunk_had_audio : Bool
  onPartialBound : Bool
  onFinalBound : Bool
deriving DecidableEq

/-- Embedding of `ElevenLabsRealtimeClient.send_audio_chunk`
(elevenlabs_client.py lines 162-197), on its non-raising send path.
Returns the updated client and the list of wire messages sent. -/
def send_audio_chunk (c : ClientState) (audio_bytes : List Nat) :
    ClientState × List WireMessage :=
  if !c.connected || !c.ws_open then (c, [])
  else
    ({ c with last_chunk_had_audio := true },
     [{ message_type := "input_audio_chunk"
        audio_base_64 := base64Encode audio_bytes
        sample_rate := c.config.sample_rate
        commit := false }])

/-- Embedding of `ElevenLabsRealtimeClient.send_commit`
(elevenlabs_client.py lines 199-236), on its non-raising send path. -/
def send_commit (c : ClientState) : ClientState × List WireMessage :=
  if !c.connected || !c.ws_open then (c, [])
  else if !(c.config.commit_strategy == "manual") then (c, [])
  else if !c.last_chunk_had_audio then (c, [])
  else
    ({ c with last_chunk_had_audio := false },
     [{ message_type := "input_audio_chunk"
        audio_base_64 := ""
        sample_rate := c.config.sample_rate
        commit := true }])

/- ------------------------------------------------------------------
   Upstream receive-loop dispatch.
   ------------------------------------------------------------------ -/

/-- An inbound upstream message after JSON parsing, restricted to the keys
`_receive_loop` reads for control flow (elevenlabs_client.py lines 261-287).
`message_type` and `type_field` embed `msg.get("message_type")` and
`msg.get("type")`; `transcript` and `text` embed `msg.get("transcript")`
and `msg.get("text")`.  Keys read only for printing (`session_id`,
`message`, `error`) are not modelled. -/
structure InboundMsg where
  message_type : Option String
  type_field : Option String
  transcript : Option String
  text : Option String
deriving DecidableEq

/-- A callback invocation the receive loop performs. -/
inductive CallbackCall
  | onPartialWith (text : String)
  | onFinalWith (text : String)
deriving DecidableEq

/-- The text of a callback invocation. -/
def CallbackCall.textOf : CallbackCall → String
  | .onPartialWith t => t
  | .onFinalWith t => t

/-- Embedding of `text = msg.get("transcript") or msg.get("text") or ""`
(elevenlabs_client.py lines 268 and 277). -/
def extractTranscriptText (msg : InboundMsg) : String :=
  pyOrStrEmpty msg.transcript msg.text

/-- Embedding of the per-message dispatch of
`ElevenLabsRealtimeClient._receive_loop` (elevenlabs_client.py lines
261-287): which callback, if any, a parsed message triggers.  The
session-started, error and unrecognized branches only print, so they
yield no invocation. -/
def receiveDispatch (onPartialB onFinalB : Bool) (msg : InboundMsg) :
    Option CallbackCall :=
  if pyOrOpt msg.message_type msg.type_field == some ("session_started")
      || pyOrOpt msg.message_type msg.type_field == some ("sessionStarted") then
    none
  else if pyOrOpt msg.message_type msg.type_field == some ("partial_transcript")
      || pyOrOpt msg.message_type msg.type_field == some ("partialTranscript") then
    if !(extractTranscriptText msg).isEmpty && onPartialB then
      some (.onPartialWith (extractTranscriptText msg))
    else none
  else if pyOrOpt msg.message_type msg.type_field == some ("committed_transcript")
      || pyOrOpt msg.message_type msg.type_field == some ("committedTranscript")
      || pyOrOpt msg.message_type msg.type_field
          == some ("committedTranscriptWithTimestamps") then
    if !(extractTranscriptText msg).isEmpty && onFinalB then
      some (.onFinalWith (extractTranscriptText msg))
    else none
  else
    none

/- ------------------------------------------------------------------
   Session and manager state (session_manager.py).
   ------------------------------------------------------------------ -/

/-- Embedding of the `Session` dataclass (session_manager.py lines 12-30).
`ws_connected` models the FastAPI websocket's
`client_state != WebSocketState.DISCONNECTED`; `meta_mode` and
`meta_conn_error` model the only two `meta` keys the source ever writes
(`"mode"`, `"connection_error"`); `manual_commit_task` models whether the
task handle is present (`is not None`). -/
structure SessionState where
  id : String
  ws_connected : Bool
  eleven_client : Option ClientState := none
  is_active : Bool := true
  meta_mode : Option String := none
  meta_conn_error : Option String := none
  manual_commit_task : Bool := false
deriving DecidableEq

/-- Embedding of the `SessionManager` state (session_manager.py lines
44-54): its session registry (dict embedded as an association list), the
presence of the optional `RunLogger`, and the resolved API key (the empty
string models a missing `ELEVENLABS_API_KEY`). -/
structure ManagerState where
  sessions : List (String × SessionState)
  hasRunLogger : Bool
  api_key : String
deriving DecidableEq

/-- One entry in a `RunLogger.log_event` payload, restricted to the event
dictionaries `session_manager.py` actually builds. -/
inductive LogEventKind
  | modeSet (mode : String)
  | stopSignal
  | textEcho (received : String) (sent : String)
  | audioChunk (size : Nat)
  | manualCommit (interval : ℚ)
  | transcript (isFinal : Bool) (text : String)
deriving DecidableEq

/-- Observable side effects of the session manager, emitted in the order
the corresponding Python statements execute.  State writes that temporal
claims depend on (`is_active = False`, `meta["mode"] = ...`,
`eleven_client = ...`) are recorded as events too. -/
inductive TraceEvent
  | startRun (sid : String)
  | setActiveFalse (sid : String)
  | cancelCommitTask (sid : String)
  | awaitCommitTaskCancelled (sid : String)
  | closeElevenClient (sid : String)
  | closeWebSocket (sid : String)
  | finishRun (sid : String)
  | removeFromRegistry (sid : String)
  | setMetaMode (sid : String) (mode : String)
  | setMetaConnError (sid : String) (msg : String)
  | connectAttempt (sid : String)
  | setElevenClient (sid : String)
  | startCommitTask (sid : String) (interval : ℚ)
  | sendText (sid : String) (msg : String)
  | upstreamSend (sid : String) (msg : WireMessage)
  | logEvent (sid : String) (ev : LogEventKind)
deriving DecidableEq

/-- Replace the session stored under `sid` (registry write). -/
def updateSession (m : ManagerState) (sid : String) (s : SessionState) :
    ManagerState :=
  { m with sessions := m.sessions.map (fun p => if p.1 = sid then (sid, s) else p) }

/-- Delete the registry entry keyed `sid`, embedding
`del self.sessions[session_id]`. -/
def eraseKey (sid : String) : List (String × SessionState) →
    List (String × SessionState)
  | [] => []
  | p :: l => if p.1 = sid then eraseKey sid l else p :: eraseKey sid l

/-- Registry lookup, embedding `self.sessions.get(session_id)`. -/
def mgrLookup (m : ManagerState) (sid : String) : Option SessionState :=
  List.lookup sid m.sessions

/-- Embedding of `SessionManager.create_session` (session_manager.py lines
99-115).  The fresh UUID is supplied as `sid` (uniqueness is a hypothesis
where needed); the websocket has just been accepted, so it is connected. -/
def create_session (m : ManagerState) (sid : String) :
    ManagerState × List TraceEvent :=
  ({ m with sessions := (sid, { id := sid, ws_connected := true }) :: m.sessions },
   if m.hasRunLogger then [TraceEvent.startRun sid] else [])

/-- Embedding of `SessionManager.close_session` (session_manager.py lines
117-173), statement by statement:
mark inactive; cancel and await the commit task if present; close the
upstream client if present (failure tolerated); close the websocket if the
peer has not already disconnected (failure tolerated); notify the run
logger; delete the registry entry. -/
def close_session (m : ManagerState) (sid : String) :
    ManagerState × List TraceEvent :=
  match mgrLookup m sid with
  | none => (m, [])
  | some s =>
      (({ m with sessions := eraseKey sid m.sessions }),
       TraceEvent.setActiveFalse sid
         :: ((if s.manual_commit_task then
               [TraceEvent.cancelCommitTask sid,
                TraceEvent.awaitCommitTaskCancelled sid]
             else [])
           ++ (if s.eleven_client.isSome then [TraceEvent.closeElevenClient sid]
              else [])
           ++ (if s.ws_connected then [TraceEvent.closeWebSocket sid] else [])
           ++ (if m.hasRunLogger then [TraceEvent.finishRun sid] else [])
           ++ [TraceEvent.removeFromRegistry sid]))

/-- Embedding of `mode = "lecture" if mode_raw != "discussion" else
"discussion"` applied to `stripped.split(":", 1)[1].strip().lower()`
(session_manager.py lines 196-197). -/
def requestedMode (text : String) : String :=
  let modeRaw := pyLower (pyStrip (pySplitOnceTail (pyStrip text) (':')))
  if modeRaw == "discussion" then "discussion" else "lecture"

/-- Embedding of the `stripped.upper().startswith("MODE:")` guard
(session_manager.py line 195). -/
def isModeMessage (text : String) : Bool :=
  pyStartsWith (pyUpper (pyStrip text)) ("MODE:")

/-- Outcome of the network I/O inside `ElevenLabsRealtimeClient.connect()`
(token fetch plus websocket handshake), supplied by the environment:
success, or failure with the stringified exception. -/
structure ConnectEnv where
  ok : Bool
  errMsg : String
deriving DecidableEq

/-- Embedding of `SessionManager.handle_text_message` (session_manager.py
lines 175-305).  Mirrors the source's branch structure: missing or
inactive session is a no-op; a `MODE:` message writes `meta["mode"]`, logs
`mode_set`, and then either reports the missing API key, builds a config
and connects a fresh client (starting the commit task when the strategy is
manual), records the connection failure, or — when a client already
exists — just acknowledges; `STOP` logs and acknowledges; any other text
is echoed then logged. -/
def handle_text_message (m : ManagerState) (sid : String) (text : String)
    (env : ConnectEnv) : ManagerState × List TraceEvent :=
  match mgrLookup m sid with
  | none => (m, [])
  | some s =>
    if !s.is_active then (m, [])
    else if isModeMessage text then
      let mode := requestedMode text
      let s1 := { s with meta_mode := some mode }
      let ev0 := TraceEvent.setMetaMode sid mode
        :: (if m.hasRunLogger then [TraceEvent.logEvent sid (.modeSet mode)]
           else [])
      match s.eleven_client with
      | none =>
        if m.api_key == "" then
          (updateSession m sid s1,
           ev0 ++ [TraceEvent.sendText sid ("[error] ELEVENLABS_API_KEY not configured")])
        else
          let config := buildElevenLabsConfigForMode mode
          if env.ok then
            let client : ClientState :=
              { api_key := m.api_key
                config := config
                connected := true
                ws_open := true
                last_chunk_had_audio := false
                onPartialBound := true
                onFinalBound := true }
            let s2 := { s1 with eleven_client := some client }
            let successMsg :=
              "[config] mode set to " ++ mode ++ ", connected to ElevenLabs"
            if config.commit_strategy == "manual" then
              (updateSession m sid { s2 with manual_commit_task := true },
               ev0 ++ [TraceEvent.connectAttempt sid,
                 TraceEvent.setElevenClient sid,
                 TraceEvent.sendText sid successMsg,
                 TraceEvent.startCommitTask sid manualCommitInterval])
            else
              (updateSession m sid s2,
               ev0 ++ [TraceEvent.connectAttempt sid,
                 TraceEvent.setElevenClient sid,
                 TraceEvent.sendText sid successMsg])
          else
            (updateSession m sid { s1 with meta_conn_error := some env.errMsg },
             ev0 ++ [TraceEvent.connectAttempt sid,
               TraceEvent.setMetaConnError sid env.errMsg,
               TraceEvent.sendText sid
                 ("[error] Failed to connect to ElevenLabs: " ++ env.errMsg)])
      | some _ =>
        (updateSession m sid s1,
         ev0 ++ [TraceEvent.sendText sid ("[config] mode already set to " ++ mode)])
    else if pyUpper (pyStrip text) == "STOP" then
      (m, (if m.hasRunLogger then [TraceEvent.logEvent sid .stopSignal] else [])
        ++ [TraceEvent.sendText sid ("[info] Recording stopped")])
    else
      (m, TraceEvent.sendText sid ("Echo: " ++ text)
        :: (if m.hasRunLogger then
             [TraceEvent.logEvent sid (.textEcho text ("Echo: " ++ text))]
           else []))

/-- Embedding of `SessionManager.handle_binary_audio` (session_manager.py
lines 307-349): missing/inactive session or absent upstream client returns
without doing anything; otherwise the chunk is forwarded via
`send_audio_chunk` and an `audio_chunk` event is logged. -/
def handle_binary_audio (m : ManagerState) (sid : String) (data : List Nat) :
    ManagerState × List TraceEvent :=
  match mgrLookup m sid with
  | none => (m, [])
  | some s =>
    if !s.is_active then (m, [])
    else
      match s.eleven_client with
      | none => (m, [])
      | some c =>
        let sent := send_audio_chunk c data
        (updateSession m sid { s with eleven_client := some sent.1 },
         sent.2.map (TraceEvent.upstreamSend sid)
           ++ (if m.hasRunLogger then
                [TraceEvent.logEvent sid (.audioChunk data.length)]
              else []))

/-- Embedding of `SessionManager.push_transcript_to_client`
(session_manager.py lines 351-388): drop if missing/inactive, else send
the tagged text and log the transcript event. -/
def push_transcript_to_client (m : ManagerState) (sid : String)
    (text : String) (isFinal : Bool) : ManagerState × List TraceEvent :=
  match mgrLookup m sid with
  | none => (m, [])
  | some s =>
    if !s.is_active then (m, [])
    else
      let msgType := if isFinal then "final" else "partial"
      (m, TraceEvent.sendText sid ("[" ++ msgType ++ "] " ++ text)
        :: (if m.hasRunLogger then
             [TraceEvent.logEvent sid (.transcript isFinal text)]
           else []))

/-- Embedding of one iteration of `SessionManager._manual_commit_loop`
(session_manager.py lines 390-433), i.e. the body executed after each
`asyncio.sleep(interval)`: a missing or inactive session ends the loop;
otherwise, when an upstream client is present, the source only prints and
logs a `manual_commit` event — the `send_commit()` call is left commented
out (`TODO: Implement actual commit sending`, lines 423-424), so no
upstream message is produced and no state changes. -/
def manual_commit_tick (m : ManagerState) (sid : String) (interval : ℚ) :
    ManagerState × List TraceEvent :=
  match mgrLookup m sid with
  | none => (m, [])
  | some s =>
    if !s.is_active then (m, [])
    else if s.eleven_client.isSome then
      (m, if m.hasRunLogger then [TraceEvent.logEvent sid (.manualCommit interval)]
         else [])
    else (m, [])

/- ------------------------------------------------------------------
   Reachable manager states.
   ------------------------------------------------------------------ -/

/-- The manager states reachable by the session manager's entry points,
starting from a fresh `SessionManager` (empty registry, any logger
wiring, any API key).  `create` carries the freshness of the generated
UUID as a hypothesis. -/
inductive Reachable : ManagerState → Prop
  | init (hasLogger : Bool) (key : String) :
      Reachable { sessions := [], hasRunLogger := hasLogger, api_key := key }
  | create {m : ManagerState} (sid : String) :
      Reachable m → mgrLookup m sid = none →
      Reachable (create_session m sid).1
  | close {m : ManagerState} (sid : String) :
      Reachable m → Reachable (close_session m sid).1
  | text {m : ManagerState} (sid : String) (msg : String) (env : ConnectEnv) :
      Reachable m → Reachable (handle_text_message m sid msg env).1
  | binary {m : ManagerState} (sid : String) (data : List Nat) :
      Reachable m → Reachable (handle_binary_audio m sid data).1
  | tick {m : ManagerState} (sid : String) (interval : ℚ) :
      Reachable m → Reachable (manual_commit_tick m sid interval).1
  | push {m : ManagerState} (sid : String) (text : String) (isFinal : Bool) :
      Reachable m → Reachable (push_transcript_to_client m sid text isFinal).1

/-- A present upstream client configured with the manual commit strategy. -/
def clientManual : Option ClientState → Bool
  | none => false
  | some c => c.config.commit_strategy == "manual"

/-- Per-session shape of the commit-task invariant: the task handle is
present exactly when a manual-strategy upstream client is present. -/
def sessionInv (s : SessionState) : Prop :=
  s.manual_commit_task = clientManual s.eleven_client

/-- The commit-task invariant over the whole registry. -/
def managerInv (m : ManagerState) : Prop :=
  ∀ p ∈ m.sessions, sessionInv p.2

/-- Session used by several concrete witnesses: fully initialized state
with a manual-strategy client and a running commit task. -/
def wSessFull : SessionState :=
  { id := "s1"
    ws_connected := true
    eleven_client := some
      { api_key := "k"
        config := buildElevenLabsConfigForMode ("discussion")
        connected := true
        ws_open := true
        last_chunk_had_audio := true
        onPartialBound := true
        onFinalBound := true }
    is_active := true
    meta_mode := some ("discussion")
    meta_conn_error := none
    manual_commit_task := true }

/-- Manager used by several concrete witnesses. -/
def wMgrFull : ManagerState :=
  { sessions := [("s1", wSessFull)], hasRunLogger := true, api_key := "k" }

/-- Event predicate: an upstream websocket send. -/
def isUpstreamSendEvent : TraceEvent → Bool
  | .upstreamSend _ _ => true
  | _ => false

/-- Manager for the missing-credential scenario: one fresh active session,
logger wired, empty API key. -/
def noKeyMgr : ManagerState :=
  { sessions := [("s1", { id := "s1", ws_connected := true })],
    hasRunLogger := true, api_key := "" }

/-- The client-facing text messages of a trace, in order. -/
def sentTexts (tr : List TraceEvent) : List String :=
  tr.filterMap (fun e => match e with
    | .sendText _ msg => some msg
    | _ => none)

/- ------------------------------------------------------------------
   Helper lemmas about the registry association list.
   ------------------------------------------------------------------ -/

/-- After deleting every entry keyed `sid`, looking up `sid` fails. -/
theorem lookup_eraseKey (sid : String) (l : List (String × SessionState)) :
    List.lookup sid (eraseKey sid l) = none := by
  induction l with
  | nil => rfl
  | cons p l ih =>
      obtain ⟨k, v⟩ := p
      by_cases h : k = sid
      · simpa [eraseKey, h] using ih
      · have hbeq : (sid == k) = false := by simp [Ne.symm h]
        simp [eraseKey, h, List.lookup, hbeq, ih]

/-- Erasing a key only removes entries. -/
theorem mem_of_mem_eraseKey {sid : String} {p : String × SessionState}
    {l : List (String × SessionState)} (h : p ∈ eraseKey sid l) : p ∈ l := by
  induction l with
  | nil => simp [eraseKey] at h
  | cons q l ih =>
      by_cases hq : q.1 = sid
      · simp only [eraseKey, if_pos hq] at h
        exact List.mem_cons_of_mem _ (ih h)
      · simp only [eraseKey, if_neg hq, List.mem_cons] at h
        rcases h with h | h
        · exact h ▸ List.mem_cons_self _ _
        · exact List.mem_cons_of_mem _ (ih h)

/-- Rewriting the entry keyed `sid` makes lookup return the new value,
provided `sid` was present. -/
theorem lookup_map_update (sid : String) (s2 : SessionState)
    (l : List (String × SessionState)) (h : (List.lookup sid l).isSome) :
    List.lookup sid (l.map (fun p => if p.1 = sid then (sid, s2) else p)) =
      some s2 := by
  induction l with
  | nil => simp [List.lookup] at h
  | cons p l ih =>
      obtain ⟨k, v⟩ := p
      by_cases hk : k = sid
      · subst hk
        have hmap : List.map (fun p : String × SessionState =>
            if p.1 = k then (k, s2) else p) ((k, v) :: l) =
            (k, s2) :: List.map (fun p => if p.1 = k then (k, s2) else p) l := by
          rw [List.map_cons]
          congr 1
          exact if_pos rfl
        rw [hmap]
        simp [List.lookup]
      · have hbeq : (sid == k) = false := by simp [Ne.symm hk]
        have h2 : (List.lookup sid l).isSome := by
          simpa [List.lookup, hbeq] using h
        have hmap : List.map (fun p : String × SessionState =>
            if p.1 = sid then (sid, s2) else p) ((k, v) :: l) =
            (k, v) :: List.map (fun p => if p.1 = sid then (sid, s2) else p) l := by
          rw [List.map_cons]
          congr 1
          exact if_neg hk
        rw [hmap]
        simp [List.lookup, hbeq, ih h2]

/-- A successful lookup locates a registry entry. -/
theorem mem_of_lookup_eq_some {l : List (String × SessionState)} {sid : String}
    {s : SessionState} (h : List.lookup sid l = some s) : (sid, s) ∈ l := by
  induction l with
  | nil => simp [List.lookup] at h
  | cons p l ih =>
      obtain ⟨k, v⟩ := p
      by_cases hk : sid = k
      · subst hk
        simp only [List.lookup, beq_self_eq_true, Option.some.injEq] at h
        simp [h]
      · have hbeq : (sid == k) = false := by simp [hk]
        simp only [List.lookup, hbeq] at h
        exact List.mem_cons_of_mem _ (ih h)

/-- Lookup of the updated registry, at manager level. -/
theorem mgrLookup_update (m : ManagerState) (sid : String) (s2 : SessionState)
    (h : (mgrLookup m sid).isSome) :
    mgrLookup (updateSession m sid s2) sid = some s2 :=
  lookup_map_update sid s2 m.sessions h

/- ------------------------------------------------------------------
   C3: the mode-configuration resolver.
   ------------------------------------------------------------------ -/

/-- C3: `_build_elevenlabs_config_for_mode` is a pure total function; for
any string lowering to "discussion" it yields commit strategy "manual"
with no VAD parameters (and the scheduler's interval constant is 12
seconds); for every other string — "lecture" included — it yields commit
strategy "vad" with silence threshold 1.5 s, activation threshold 0.4 and
minimum speech duration 250 ms. -/
theorem buildConfig_mode_resolution (mode : String) :
    (pyLower mode = "discussion" →
      (buildElevenLabsConfigForMode mode).commit_strategy = "manual" ∧
      (buildElevenLabsConfigForMode mode).vad_silence_threshold_secs = none ∧
      (buildElevenLabsConfigForMode mode).vad_threshold = none ∧
      (buildElevenLabsConfigForMode mode).min_speech_duration_ms = none) ∧
    (pyLower mode ≠ "discussion" →
      (buildElevenLabsConfigForMode mode).commit_strategy = "vad" ∧
      (buildElevenLabsConfigForMode mode).vad_silence_threshold_secs = some (3 / 2) ∧
      (buildElevenLabsConfigForMode mode).vad_threshold = some (2 / 5) ∧
      (buildElevenLabsConfigForMode mode).min_speech_duration_ms = some 250) ∧
    manualCommitInterval = 12 := by
  refine ⟨fun h => ?_, fun h => ?_, rfl⟩
  · simp [buildElevenLabsConfigForMode, h]
  · simp [buildElevenLabsConfigForMode, h]

/-- Witness for C3 at the concrete modes "DisCussion" and "Lecture". -/
theorem buildConfig_mode_resolution_witness :
    (buildElevenLabsConfigForMode ("DisCussion")).commit_strategy = "manual" ∧
    (buildElevenLabsConfigForMode ("Lecture")).commit_strategy = "vad" :=
  ⟨((buildConfig_mode_resolution ("DisCussion")).1 (by decide)).1,
   (((buildConfig_mode_resolution ("Lecture")).2).1 (by decide)).1⟩

/- ------------------------------------------------------------------
   C4: close_session is idempotent.
   ------------------------------------------------------------------ -/

/-- A close on an identifier absent from the registry is a silent no-op. -/
theorem close_session_not_found {m : ManagerState} {sid : String}
    (h : mgrLookup m sid = none) : close_session m sid = (m, []) := by
  simp [close_session, h]

/-- C4: closing a session removes it from the registry, and a second
`close_session` on the removed identifier returns silently with no
side effects (an empty event trace) and no state change. -/
theorem close_session_idempotent (m : ManagerState) (sid : String)
    (h : (mgrLookup m sid).isSome) :
    mgrLookup (close_session m sid).1 sid = none ∧
    close_session (close_session m sid).1 sid = ((close_session m sid).1, []) := by
  obtain ⟨s, hs⟩ := Option.isSome_iff_exists.mp h
  have hfst : (close_session m sid).1 =
      { m with sessions := eraseKey sid m.sessions } := by
    simp [close_session, hs]
  have h1 : mgrLookup (close_session m sid).1 sid = none := by
    rw [hfst]
    exact lookup_eraseKey sid m.sessions
  exact ⟨h1, close_session_not_found h1⟩

/-- Witness for C4 at a concrete one-session manager. -/
theorem close_session_idempotent_witness :
    mgrLookup (close_session wMgrFull ("s1")).1 ("s1") = none ∧
    close_session (close_session wMgrFull ("s1")).1 ("s1") =
      ((close_session wMgrFull ("s1")).1, []) :=
  close_session_idempotent wMgrFull ("s1") (by decide)

/- ------------------------------------------------------------------
   C6: binary audio with no upstream client is a no-op.
   ------------------------------------------------------------------ -/

/-- C6: for an active registered session with no upstream client,
`handle_binary_audio` returns with no state change and no effects at
all — the frame is dropped, not queued, and nothing is attempted
upstream. -/
theorem handle_binary_no_client_noop (m : ManagerState) (sid : String)
    (s : SessionState) (data : List Nat)
    (h : mgrLookup m sid = some s) (ha : s.is_active = true)
    (hc : s.eleven_client = none) :
    handle_binary_audio m sid data = (m, []) := by
  simp [handle_binary_audio, h, ha, hc]

/-- Witness for C6: a fresh session that has not selected a mode drops a
3,200-byte-long frame (modelled by its length only here: a concrete
5-byte frame) without effect. -/
theorem handle_binary_no_client_noop_witness :
    handle_binary_audio
      { sessions := [("s1", { id := "s1", ws_connected := true })],
        hasRunLogger := true, api_key := "k" }
      ("s1") [0, 1, 2, 3, 4] =
    ({ sessions := [("s1", { id := "s1", ws_connected := true })],
       hasRunLogger := true, api_key := "k" }, []) :=
  handle_binary_no_client_noop _ ("s1") { id := "s1", ws_connected := true }
    [0, 1, 2, 3, 4] (by decide) (by decide) (by decide)

/- ------------------------------------------------------------------
   C7: send_commit semantics.
   ------------------------------------------------------------------ -/

/-- C7: `send_commit` is a no-op when disconnected, when the strategy is
not manual, or when no audio has been sent since the previous commit;
otherwise it emits exactly one commit message (empty audio payload,
commit flag true) and resets the audio-sent flag, so a second immediate
`send_commit` emits nothing — exactly one upstream commit message across
the two calls. -/
theorem send_commit_spec (c : ClientState) :
    (c.connected = false ∨ c.ws_open = false → send_commit c = (c, [])) ∧
    (c.config.commit_strategy ≠ "manual" → send_commit c = (c, [])) ∧
    (c.last_chunk_had_audio = false → send_commit c = (c, [])) ∧
    (c.connected = true → c.ws_open = true →
      c.config.commit_strategy = "manual" → c.last_chunk_had_audio = true →
      send_commit c =
        ({ c with last_chunk_had_audio := false },
         [{ message_type := "input_audio_chunk"
            audio_base_64 := ""
            sample_rate := c.config.sample_rate
            commit := true }]) ∧
      (send_commit (send_commit c).1).2 = [] ∧
      (send_commit c).2.length + (send_commit (send_commit c).1).2.length = 1) := by
  have hnoaudio : ∀ d : ClientState, d.last_chunk_had_audio = false →
      send_commit d = (d, []) := by
    intro d hd
    unfold send_commit
    split
    · rfl
    · split
      · rfl
      · simp [hd]
  refine ⟨fun h => ?_, fun h => ?_, hnoaudio c, fun h1 h2 h3 h4 => ?_⟩
  · rcases h with h | h <;> simp [send_commit, h]
  · simp [send_commit, h]
  · have he : send_commit c =
        ({ c with last_chunk_had_audio := false },
         [{ message_type := "input_audio_chunk"
            audio_base_64 := ""
            sample_rate := c.config.sample_rate
            commit := true }]) := by
      simp [send_commit, h1, h2, h3, h4]
    refine ⟨he, ?_, ?_⟩
    · rw [he, hnoaudio _ rfl]
    · rw [he, hnoaudio _ rfl]
      rfl

/-- Witness for C7 at a concrete connected manual-strategy client. -/
theorem send_commit_spec_witness :
    (send_commit
      { api_key := "k"
        config := buildElevenLabsConfigForMode ("discussion")
        connected := true
        ws_open := true
        last_chunk_had_audio := true
        onPartialBound := true
        onFinalBound := true }).2.length +
    (send_commit (send_commit
      { api_key := "k"
        config := buildElevenLabsConfigForMode ("discussion")
        connected := true
        ws_open := true
        last_chunk_had_audio := true
        onPartialBound := true
        onFinalBound := true }).1).2.length = 1 :=
  ((send_commit_spec _).2.2.2 (by decide) (by decide) (by decide) (by decide)).2.2

/- ------------------------------------------------------------------
   C9: empty transcripts never reach a callback.
   ------------------------------------------------------------------ -/

/-- C9: whatever the inbound message and however the callbacks are bound,
an empty or absent transcript text triggers no callback, and any callback
the receive loop does invoke carries non-empty text. -/
theorem receiveDispatch_empty_text (pb fb : Bool) (msg : InboundMsg) :
    (extractTranscriptText msg = "" → receiveDispatch pb fb msg = none) ∧
    (∀ cb, receiveDispatch pb fb msg = some cb → cb.textOf ≠ "") := by
  have hempty : extractTranscriptText msg = "" → receiveDispatch pb fb msg = none := by
    intro h
    simp [receiveDispatch, h, show ("" : String).isEmpty = true by decide]
  refine ⟨hempty, fun cb hcb => ?_⟩
  by_cases h : extractTranscriptText msg = ""
  · rw [hempty h] at hcb
    exact absurd hcb (by simp)
  · unfold receiveDispatch at hcb
    split at hcb
    · exact absurd hcb (by simp)
    · split at hcb
      · split at hcb
        · simp only [Option.some.injEq] at hcb
          subst hcb
          simpa [CallbackCall.textOf] using h
        · exact absurd hcb (by simp)
      · split at hcb
        · split at hcb
          · simp only [Option.some.injEq] at hcb
            subst hcb
            simpa [CallbackCall.textOf] using h
          · exact absurd hcb (by simp)
        · exact absurd hcb (by simp)

/-- Witness for C9: a bound-callback client receiving a partial transcript
message whose `transcript` field is empty and `text` field absent invokes
nothing. -/
theorem receiveDispatch_empty_text_witness :
    receiveDispatch true true
      { message_type := some ("partial_transcript"), type_field := none,
        transcript := some (""), text := none } = none :=
  (receiveDispatch_empty_text true true _).1 (by decide)

/- ------------------------------------------------------------------
   Preservation of the commit-task invariant (towards C8).
   ------------------------------------------------------------------ -/

/-- Forwarding audio never changes the client's configuration. -/
theorem send_audio_chunk_config (c : ClientState) (d : List Nat) :
    (send_audio_chunk c d).1.config = c.config := by
  unfold send_audio_chunk
  split <;> rfl

/-- Updating one session preserves the invariant when the new session
satisfies it. -/
theorem managerInv_update {m : ManagerState} {sid : String} {s2 : SessionState}
    (hm : managerInv m) (hs : sessionInv s2) :
    managerInv (updateSession m sid s2) := by
  intro p hp
  simp only [updateSession] at hp
  rcases List.mem_map.mp hp with ⟨q, hq, rfl⟩
  by_cases h : q.1 = sid
  · rw [if_pos h]
    exact hs
  · rw [if_neg h]
    exact hm q hq

/-- Deleting a session preserves the invariant. -/
theorem managerInv_erase {m : ManagerState} {sid : String}
    (hm : managerInv m) :
    managerInv { m with sessions := eraseKey sid m.sessions } := by
  intro p hp
  exact hm p (mem_of_mem_eraseKey hp)

/-- `create_session` preserves the invariant: the fresh session has no
client and no commit task. -/
theorem create_session_inv (m : ManagerState) (sid : String)
    (hm : managerInv m) : managerInv (create_session m sid).1 := by
  intro p hp
  simp only [create_session] at hp
  rcases List.mem_cons.mp hp with rfl | hp
  · rfl
  · exact hm p hp

/-- `close_session` preserves the invariant. -/
theorem close_session_inv (m : ManagerState) (sid : String)
    (hm : managerInv m) : managerInv (close_session m sid).1 := by
  cases hl : mgrLookup m sid with
  | none =>
      rw [close_session_not_found hl]
      exact hm
  | some s =>
      have hfst : (close_session m sid).1 =
          { m with sessions := eraseKey sid m.sessions } := by
        simp [close_session, hl]
      rw [hfst]
      exact managerInv_erase hm

/-- `handle_text_message` preserves the invariant across all its
branches. -/
theorem handle_text_inv (m : ManagerState) (sid : String) (text : String)
    (env : ConnectEnv) (hm : managerInv m) :
    managerInv (handle_text_message m sid text env).1 := by
  cases hl : mgrLookup m sid with
  | none =>
      have hres : handle_text_message m sid text env = (m, []) := by
        simp [handle_text_message, hl]
      rw [hres]
      exact hm
  | some s =>
    have hs : sessionInv s := hm (sid, s) (mem_of_lookup_eq_some hl)
    by_cases hact : s.is_active = true
    case neg =>
      have hact2 : s.is_active = false := by simpa using hact
      have hres : handle_text_message m sid text env = (m, []) := by
        simp [handle_text_message, hl, hact2]
      rw [hres]
      exact hm
    case pos =>
    by_cases hmode : isModeMessage text = true
    case neg =>
      have hmode2 : isModeMessage text = false := by simpa using hmode
      by_cases hstop : pyUpper (pyStrip text) == "STOP"
      · have hres : (handle_text_message m sid text env).1 = m := by
          simp [handle_text_message, hl, hact, hmode2, hstop]
        rw [hres]
        exact hm
      · have hstop2 : (pyUpper (pyStrip text) == "STOP") = false := by
          simpa using hstop
        have hres : (handle_text_message m sid text env).1 = m := by
          simp [handle_text_message, hl, hact, hmode2, hstop2]
        rw [hres]
        exact hm
    case pos =>
    cases hcl : s.eleven_client with
    | some c =>
        have hres : (handle_text_message m sid text env).1 =
            updateSession m sid { s with meta_mode := some (requestedMode text) } := by
          simp [handle_text_message, hl, hact, hcl, hmode]
        rw [hres]
        exact managerInv_update hm hs
    | none =>
      by_cases hkey : (m.api_key == "") = true
      case pos =>
        have hres : (handle_text_message m sid text env).1 =
            updateSession m sid { s with meta_mode := some (requestedMode text) } := by
          simp [handle_text_message, hl, hact, hcl, hmode, hkey]
        rw [hres]
        exact managerInv_update hm hs
      case neg =>
        have hkey2 : (m.api_key == "") = false := by simpa using hkey
        by_cases hok : env.ok = true
        case neg =>
          have hok2 : env.ok = false := by simpa using hok
          have hres : (handle_text_message m sid text env).1 =
              updateSession m sid
                { s with
                  meta_mode := some (requestedMode text),
                  meta_conn_error := some env.errMsg } := by
            simp [handle_text_message, hl, hact, hcl, hmode, hkey2, hok2]
          rw [hres]
          exact managerInv_update hm hs
        case pos =>
          by_cases hstrat :
              ((buildElevenLabsConfigForMode (requestedMode text)).commit_strategy
                == "manual") = true
          case pos =>
            have hres : (handle_text_message m sid text env).1 =
                updateSession m sid
                  { s with
                    meta_mode := some (requestedMode text),
                    eleven_client := some
                      { api_key := m.api_key,
                        config := buildElevenLabsConfigForMode (requestedMode text),
                        connected := true, ws_open := true,
                        last_chunk_had_audio := false,
                        onPartialBound := true, onFinalBound := true },
                    manual_commit_task := true } := by
              simp [handle_text_message, hl, hact, hcl, hmode, hkey2, hok, hstrat]
            rw [hres]
            exact managerInv_update hm hstrat.symm
          case neg =>
            have hstrat2 :
                ((buildElevenLabsConfigForMode (requestedMode text)).commit_strategy
                  == "manual") = false := by simpa using hstrat
            have hres : (handle_text_message m sid text env).1 =
                updateSession m sid
                  { s with
                    meta_mode := some (requestedMode text),
                    eleven_client := some
                      { api_key := m.api_key,
                        config := buildElevenLabsConfigForMode (requestedMode text),
                        connected := true, ws_open := true,
                        last_chunk_had_audio := false,
                        onPartialBound := true, onFinalBound := true } } := by
              simp [handle_text_message, hl, hact, hcl, hmode, hkey2, hok, hstrat2]
            rw [hres]
            apply managerInv_update hm
            have hsf : s.manual_commit_task = false := by
              rw [hs, hcl]
              rfl
            show s.manual_commit_task = _
            rw [hsf]
            exact hstrat2.symm

/-- `handle_binary_audio` preserves the invariant: it can only trip the
client's audio flag, never its configuration, presence, or the task
handle. -/
theorem handle_binary_inv (m : ManagerState) (sid : String) (data : List Nat)
    (hm : managerInv m) :
    managerInv (handle_binary_audio m sid data).1 := by
  cases hl : mgrLookup m sid with
  | none =>
      have hres : handle_binary_audio m sid data = (m, []) := by
        simp [handle_binary_audio, hl]
      rw [hres]
      exact hm
  | some s =>
    by_cases hact : s.is_active = true
    case neg =>
      have hact2 : s.is_active = false := by simpa using hact
      have hres : handle_binary_audio m sid data = (m, []) := by
        simp [handle_binary_audio, hl, hact2]
      rw [hres]
      exact hm
    case pos =>
    cases hcl : s.eleven_client with
    | none =>
        have hres : handle_binary_audio m sid data = (m, []) := by
          simp [handle_binary_audio, hl, hact, hcl]
        rw [hres]
        exact hm
    | some c =>
        have hs : sessionInv s := hm (sid, s) (mem_of_lookup_eq_some hl)
        have hres : (handle_binary_audio m sid data).1 =
            updateSession m sid
              { s with eleven_client := some (send_audio_chunk c data).1 } := by
          simp [handle_binary_audio, hl, hact, hcl]
        rw [hres]
        apply managerInv_update hm
        have hs2 : s.manual_commit_task = (c.config.commit_strategy == "manual") := by
          simpa [sessionInv, clientManual, hcl] using hs
        show s.manual_commit_task = clientManual (some (send_audio_chunk c data).1)
        simp [clientManual, send_audio_chunk_config, hs2]

/-- A commit-loop tick never changes the manager state (the source leaves
the commit call unimplemented; even with it, no session field changes). -/
theorem manual_commit_tick_fst (m : ManagerState) (sid : String)
    (interval : ℚ) : (manual_commit_tick m sid interval).1 = m := by
  unfold manual_commit_tick
  cases mgrLookup m sid with
  | none => rfl
  | some s =>
      by_cases h1 : (!s.is_active) = true
      · simp [h1]
      · by_cases h2 : s.eleven_client.isSome = true <;> simp [h1, h2]

/-- Pushing a transcript never changes the manager state. -/
theorem push_transcript_fst (m : ManagerState) (sid : String) (text : String)
    (isFinal : Bool) : (push_transcript_to_client m sid text isFinal).1 = m := by
  unfold push_transcript_to_client
  cases mgrLookup m sid with
  | none => rfl
  | some s => by_cases h1 : (!s.is_active) = true <;> simp [h1]

/-- Every reachable manager state satisfies the commit-task invariant. -/
theorem reachable_managerInv {m : ManagerState} (h : Reachable m) :
    managerInv m := by
  induction h with
  | init hasLogger key => intro p hp; simp at hp
  | create sid hr hfresh ih => exact create_session_inv _ _ ih
  | close sid hr ih => exact close_session_inv _ _ ih
  | text sid msg env hr ih => exact handle_text_inv _ _ _ _ ih
  | binary sid data hr ih => exact handle_binary_inv _ _ _ ih
  | tick sid interval hr ih =>
      rw [manual_commit_tick_fst]
      exact ih
  | push sid text isFinal hr ih =>
      rw [push_transcript_fst]
      exact ih

/- ------------------------------------------------------------------
   C1: teardown order of close_session.
   ------------------------------------------------------------------ -/

/-- C1: for a registered identifier, `close_session`'s effect trace is
exactly: deactivate; cancel then await the commit task (when present);
close the upstream client (when present); close the websocket (when still
connected); notify `finish_run` (when a logger is wired); and, last of
all, remove the session from the registry.  In particular, when both a
commit task and an upstream client are present the task's cancellation is
awaited strictly before the upstream client's close. -/
theorem close_session_teardown_order (m : ManagerState) (sid : String)
    (s : SessionState) (h : mgrLookup m sid = some s) :
    (close_session m sid).2 =
      [TraceEvent.setActiveFalse sid]
        ++ (if s.manual_commit_task then
             [TraceEvent.cancelCommitTask sid,
              TraceEvent.awaitCommitTaskCancelled sid]
           else [])
        ++ (if s.eleven_client.isSome then [TraceEvent.closeElevenClient sid]
           else [])
        ++ (if s.ws_connected then [TraceEvent.closeWebSocket sid] else [])
        ++ (if m.hasRunLogger then [TraceEvent.finishRun sid] else [])
        ++ [TraceEvent.removeFromRegistry sid] ∧
    (s.manual_commit_task = true → s.eleven_client.isSome = true →
      (close_session m sid).2.take 4 =
        [TraceEvent.setActiveFalse sid, TraceEvent.cancelCommitTask sid,
         TraceEvent.awaitCommitTaskCancelled sid,
         TraceEvent.closeElevenClient sid]) := by
  have htr : (close_session m sid).2 =
      [TraceEvent.setActiveFalse sid]
        ++ (if s.manual_commit_task then
             [TraceEvent.cancelCommitTask sid,
              TraceEvent.awaitCommitTaskCancelled sid]
           else [])
        ++ (if s.eleven_client.isSome then [TraceEvent.closeElevenClient sid]
           else [])
        ++ (if s.ws_connected then [TraceEvent.closeWebSocket sid] else [])
        ++ (if m.hasRunLogger then [TraceEvent.finishRun sid] else [])
        ++ [TraceEvent.removeFromRegistry sid] := by
    simp [close_session, h]
  refine ⟨htr, fun h1 h2 => ?_⟩
  rw [htr]
  simp [h1, h2]

/-- Witness for C1 on a concrete session holding both a commit task and an
upstream client. -/
theorem close_session_teardown_order_witness :
    (close_session wMgrFull ("s1")).2.take 4 =
      [TraceEvent.setActiveFalse ("s1"), TraceEvent.cancelCommitTask ("s1"),
       TraceEvent.awaitCommitTaskCancelled ("s1"),
       TraceEvent.closeElevenClient ("s1")] :=
  (close_session_teardown_order wMgrFull ("s1") wSessFull (by decide)).2
    (by decide) (by decide)

/- ------------------------------------------------------------------
   C2: the manual-commit scheduler tick (code bug).
   ------------------------------------------------------------------ -/

/-- C2 (code bug): on a tick for an active session holding a connected
manual-strategy upstream client with audio pending, the loop body only
logs a `manual_commit` event — it performs no upstream send at all and
leaves every state field unchanged, because the `send_commit()` call is
left commented out in the source (session_manager.py lines 423-424).  The
final conjunct shows the claimed behaviour was available: invoking
`send_commit` on that very client would have emitted exactly one upstream
commit message. -/
theorem manual_commit_tick_no_upstream_commit :
    (manual_commit_tick wMgrFull ("s1") manualCommitInterval).1 = wMgrFull ∧
    (manual_commit_tick wMgrFull ("s1") manualCommitInterval).2 =
      [TraceEvent.logEvent ("s1") (.manualCommit 12)] ∧
    ((manual_commit_tick wMgrFull ("s1") manualCommitInterval).2.all
      (fun e => !isUpstreamSendEvent e)) = true ∧
    (send_commit
      { api_key := "k"
        config := buildElevenLabsConfigForMode ("discussion")
        connected := true
        ws_open := true
        last_chunk_had_audio := true
        onPartialBound := true
        onFinalBound := true }).2 =
      [{ message_type := "input_audio_chunk"
         audio_base_64 := ""
         sample_rate := 16000
         commit := true }] := by
  refine ⟨by decide, by decide, by decide, by decide⟩

/- ------------------------------------------------------------------
   C10: mode re-selection with an existing client.
   ------------------------------------------------------------------ -/

/-- C10: handling a mode-select message for an active session that already
has an upstream client overwrites the session's mode metadata with the
newly requested normalized mode first and then sends the "mode already
set" acknowledgment; the upstream client, its configuration and the
commit-task handle are untouched and no connection attempt appears in the
trace. -/
theorem mode_reselect_frame (m : ManagerState) (sid : String) (text : String)
    (s : SessionState) (c : ClientState) (env : ConnectEnv)
    (h : mgrLookup m sid = some s) (ha : s.is_active = true)
    (hc : s.eleven_client = some c) (hmode : isModeMessage text = true) :
    handle_text_message m sid text env =
      (updateSession m sid { s with meta_mode := some (requestedMode text) },
       TraceEvent.setMetaMode sid (requestedMode text)
         :: ((if m.hasRunLogger then
               [TraceEvent.logEvent sid (.modeSet (requestedMode text))]
             else [])
           ++ [TraceEvent.sendText sid
                ("[config] mode already set to " ++ requestedMode text)])) ∧
    mgrLookup (handle_text_message m sid text env).1 sid =
      some { s with meta_mode := some (requestedMode text) } := by
  have heq : handle_text_message m sid text env =
      (updateSession m sid { s with meta_mode := some (requestedMode text) },
       TraceEvent.setMetaMode sid (requestedMode text)
         :: ((if m.hasRunLogger then
               [TraceEvent.logEvent sid (.modeSet (requestedMode text))]
             else [])
           ++ [TraceEvent.sendText sid
                ("[config] mode already set to " ++ requestedMode text)])) := by
    simp [handle_text_message, h, ha, hc, hmode]
  refine ⟨heq, ?_⟩
  rw [heq]
  exact mgrLookup_update m sid _ (by simp [h])

/-- Witness for C10: re-selecting mode "lecture" on a session whose client
was configured for "discussion" rewrites the metadata but keeps the
client. -/
theorem mode_reselect_frame_witness :
    mgrLookup (handle_text_message wMgrFull ("s1") ("MODE:lecture")
        { ok := true, errMsg := "" }).1 ("s1") =
      some { wSessFull with meta_mode := some (requestedMode ("MODE:lecture")) } :=
  (mode_reselect_frame wMgrFull ("s1") ("MODE:lecture") wSessFull
    { api_key := "k"
      config := buildElevenLabsConfigForMode ("discussion")
      connected := true
      ws_open := true
      last_chunk_had_audio := true
      onPartialBound := true
      onFinalBound := true }
    { ok := true, errMsg := "" } (by decide) (by decide) (by decide) (by decide)).2

/- ------------------------------------------------------------------
   C5: mode select with a missing credential (corrected).
   ------------------------------------------------------------------ -/

/-- C5 counterexample: after `MODE:lecture` is handled with no API key
configured, the session's `meta["mode"]` equals `"lecture"` — the code
writes the mode metadata (session_manager.py line 198) before the
credential check (line 210), so the claim's "mode not set" is false. -/
theorem mode_select_missing_key_counterexample :
    (mgrLookup (handle_text_message noKeyMgr ("s1") ("MODE:lecture")
        { ok := true, errMsg := "" }).1 ("s1")).map SessionState.meta_mode =
      some (some ("lecture")) ∧
    ¬ ((mgrLookup (handle_text_message noKeyMgr ("s1") ("MODE:lecture")
        { ok := true, errMsg := "" }).1 ("s1")).map SessionState.meta_mode =
      some none) :=
  ⟨by decide, by decide⟩

/-- Mode selection on an active session with no client, a configured
credential and a successful upstream connection installs an upstream
client (both for the manual and the vad strategy branch). -/
theorem handle_text_mode_connect_success (m : ManagerState) (sid : String)
    (text : String) (s : SessionState) (env : ConnectEnv)
    (h : mgrLookup m sid = some s) (ha : s.is_active = true)
    (hc : s.eleven_client = none) (hmode : isModeMessage text = true)
    (hk : m.api_key ≠ "") (hok : env.ok = true) :
    ∃ s2, mgrLookup (handle_text_message m sid text env).1 sid = some s2 ∧
      s2.eleven_client.isSome = true := by
  have hkb : (m.api_key == "") = false := by simp [hk]
  by_cases hstrat :
      (buildElevenLabsConfigForMode (requestedMode text)).commit_strategy
        == "manual"
  · have hres : (handle_text_message m sid text env).1 =
        updateSession m sid
          { s with
            meta_mode := some (requestedMode text),
            eleven_client := some
              { api_key := m.api_key,
                config := buildElevenLabsConfigForMode (requestedMode text),
                connected := true, ws_open := true, last_chunk_had_audio := false,
                onPartialBound := true, onFinalBound := true },
            manual_commit_task := true } := by
      simp [handle_text_message, h, ha, hc, hmode, hkb, hok, hstrat]
    refine ⟨{ s with
        meta_mode := some (requestedMode text),
        eleven_client := some
          { api_key := m.api_key,
            config := buildElevenLabsConfigForMode (requestedMode text),
            connected := true, ws_open := true, last_chunk_had_audio := false,
            onPartialBound := true, onFinalBound := true },
        manual_commit_task := true }, ?_, rfl⟩
    rw [hres]
    exact mgrLookup_update m sid _ (by simp [h])
  · have hres : (handle_text_message m sid text env).1 =
        updateSession m sid
          { s with
            meta_mode := some (requestedMode text),
            eleven_client := some
              { api_key := m.api_key,
                config := buildElevenLabsConfigForMode (requestedMode text),
                connected := true, ws_open := true, last_chunk_had_audio := false,
                onPartialBound := true, onFinalBound := true } } := by
      simp [handle_text_message, h, ha, hc, hmode, hkb, hok, hstrat]
    refine ⟨{ s with
        meta_mode := some (requestedMode text),
        eleven_client := some
          { api_key := m.api_key,
            config := buildElevenLabsConfigForMode (requestedMode text),
            connected := true, ws_open := true, last_chunk_had_audio := false,
            onPartialBound := true, onFinalBound := true } }, ?_, rfl⟩
    rw [hres]
    exact mgrLookup_update m sid _ (by simp [h])

/-- C5 (amended): handling a mode-select message for an active session
with no upstream client and an absent credential sends the client exactly
one text message, the `[error]` one; no upstream client is created; the
session stays alive in the registry — with its mode metadata set to the
requested normalized mode, although no upstream is configured — and a
later mode-select with the credential repaired (any non-empty key and a
successful connection) installs an upstream client. -/
theorem mode_select_missing_key_behavior (m : ManagerState) (sid : String)
    (text : String) (s : SessionState) (env : ConnectEnv)
    (hk : m.api_key = "") (h : mgrLookup m sid = some s)
    (ha : s.is_active = true) (hc : s.eleven_client = none)
    (hmode : isModeMessage text = true) :
    sentTexts (handle_text_message m sid text env).2 =
      ["[error] ELEVENLABS_API_KEY not configured"] ∧
    mgrLookup (handle_text_message m sid text env).1 sid =
      some { s with meta_mode := some (requestedMode text) } ∧
    ({ s with meta_mode := some (requestedMode text) } : SessionState).is_active
      = true ∧
    ({ s with meta_mode := some (requestedMode text) } : SessionState).eleven_client
      = none ∧
    (∀ key : String, ∀ env2 : ConnectEnv, key ≠ "" → env2.ok = true →
      ∃ s2, mgrLookup (handle_text_message
          { (handle_text_message m sid text env).1 with api_key := key }
          sid text env2).1 sid = some s2 ∧ s2.eleven_client.isSome = true) := by
  have hkb : (m.api_key == "") = true := by simp [hk]
  have heq : handle_text_message m sid text env =
      (updateSession m sid { s with meta_mode := some (requestedMode text) },
       TraceEvent.setMetaMode sid (requestedMode text)
         :: ((if m.hasRunLogger then
               [TraceEvent.logEvent sid (.modeSet (requestedMode text))]
             else [])
           ++ [TraceEvent.sendText sid
                ("[error] ELEVENLABS_API_KEY not configured")])) := by
    simp [handle_text_message, h, ha, hc, hmode, hkb]
  have hm1 : mgrLookup (handle_text_message m sid text env).1 sid =
      some { s with meta_mode := some (requestedMode text) } := by
    rw [heq]
    exact mgrLookup_update m sid _ (by simp [h])
  refine ⟨?_, hm1, ha, hc, ?_⟩
  · rw [heq]
    by_cases hl : m.hasRunLogger <;> simp [sentTexts, hl]
  · intro key env2 hkey hok
    have hl2 : mgrLookup
        ({ (handle_text_message m sid text env).1 with api_key := key }) sid =
        some { s with meta_mode := some (requestedMode text) } := hm1
    exact handle_text_mode_connect_success
      { (handle_text_message m sid text env).1 with api_key := key }
      sid text { s with meta_mode := some (requestedMode text) } env2
      hl2 ha hc hmode hkey hok

/-- Witness for C5 (amended) at the concrete missing-credential manager,
with the repair applied at key "k2". -/
theorem mode_select_missing_key_behavior_witness :
    sentTexts (handle_text_message noKeyMgr ("s1") ("MODE:lecture")
        { ok := true, errMsg := "" }).2 =
      ["[error] ELEVENLABS_API_KEY not configured"] ∧
    (∃ s2, mgrLookup (handle_text_message
        { (handle_text_message noKeyMgr ("s1") ("MODE:lecture")
            { ok := true, errMsg := "" }).1 with api_key := "k2" }
        ("s1") ("MODE:lecture") { ok := true, errMsg := "" }).1 ("s1") =
      some s2 ∧ s2.eleven_client.isSome = true) := by
  have hb := mode_select_missing_key_behavior noKeyMgr ("s1") ("MODE:lecture")
    { id := "s1", ws_connected := true } { ok := true, errMsg := "" }
    (by decide) (by decide) (by decide) (by decide) (by decide)
  exact ⟨hb.1, hb.2.2.2.2 ("k2") { ok := true, errMsg := "" } (by decide) rfl⟩

/- ------------------------------------------------------------------
   C8: the commit-task invariant on reachable states.
   ------------------------------------------------------------------ -/

/-- C8: in every reachable manager state, a registered session holds a
commit-task handle exactly when it holds an upstream client whose
configuration uses the manual commit strategy; in particular no
vad-strategy session ever has a commit task and no task exists before a
client is assigned. -/
theorem commit_task_iff_manual_client (m : ManagerState) (hr : Reachable m)
    (sid : String) (s : SessionState) (h : mgrLookup m sid = some s) :
    s.manual_commit_task = true ↔
      ∃ c, s.eleven_client = some c ∧ c.config.commit_strategy = "manual" := by
  have hs : s.manual_commit_task = clientManual s.eleven_client :=
    reachable_managerInv hr (sid, s) (mem_of_lookup_eq_some h)
  constructor
  · intro ht
    cases hcl : s.eleven_client with
    | none =>
        rw [hcl, ht] at hs
        exact absurd hs.symm (by simp [clientManual])
    | some c =>
        refine ⟨c, rfl, ?_⟩
        rw [hcl, ht] at hs
        simpa [clientManual] using hs.symm
  · rintro ⟨c, hcl, hman⟩
    rw [hcl] at hs
    simpa [clientManual, hman] using hs

/-- Witness for C8 on a concrete reachable state: a freshly created
session, which has neither task nor client. -/
theorem commit_task_iff_manual_client_witness :
    (({ id := "s1", ws_connected := true } : SessionState).manual_commit_task
      = true) ↔
      ∃ c, ({ id := "s1", ws_connected := true } : SessionState).eleven_client
        = some c ∧ c.config.commit_strategy = "manual" :=
  commit_task_iff_manual_client
    (create_session { sessions := [], hasRunLogger := true, api_key := "k" }
      ("s1")).1
    (Reachable.create ("s1") (Reachable.init true ("k")) (by decide))
    ("s1") { id := "s1", ws_connected := true } (by decide)
